import Mathlib

/-!
Verification of the two-node radio remote-control link (transmitter +
receiver for a combat robot with a life/penalty state machine).

The receiver (`src/Receptor/Receptor/main.c`) is embedded as a step
semantics on a record `RxState` of its global and main-local variables
together with the I/O registers it writes (PWM compare registers
`OCR0A`/`OCR2B`, the laser bit `PC1`, indicator bits `PC4`, `PC3`,
`PD0`, `PD1`, `PD2`).  The timer ISR is the function `tick`, the
command switch is `dispatch`, the LDR life cascade is `lifeCheck`, and
one main-loop iteration is `loopIter`.

The transmitter (`src/Transmissor/Transmissor/main.c`) contributes the
pure functions `get_cmd` (joystick quantization to a command byte),
`velocidade_final` (the speed-byte computation in `main`), and
`data_packet0` (the button-override switch choosing the command byte).

All machine integers are modelled as `Nat` (with the one modular
operation, the `uint8` increment of the penalty counter, written
explicitly as `% 256`); the C `long` arithmetic of the speed formula is
modelled on `Int`, whose division agrees with C's truncating division on
the non-negative numerators that occur.
-/

/-- Receiver state: the `volatile` globals (`tempo_rotacao`,
`modo_penalidade`, `contador_penalidade`, `ldr_estado`), the main-local
variables (`vidas`, `estado_rele`), and the output registers the
receiver writes: PWM duty registers `ocr0a`/`ocr2b`, the laser bit
`pc1`, and the indicator bits `pc4`, `pc3`, `pd0`, `pd1`, `pd2`.
`engaged` records which of the two motor-configuration routines ran
last (`motor_ligado` = true, `motor_desligado` = false). -/
structure RxState where
  tempo_rotacao : Nat
  modo_penalidade : Nat
  contador_penalidade : Nat
  ldr_estado : Nat
  vidas : Nat
  estado_rele : Nat
  pc1 : Bool
  pc4 : Bool
  pc3 : Bool
  pd0 : Bool
  pd1 : Bool
  pd2 : Bool
  ocr0a : Nat
  ocr2b : Nat
  engaged : Bool
  deriving DecidableEq, Repr

/-- Routine `motor_desligado()`: zero duty on both PWM channels. -/
def motor_desligado (s : RxState) : RxState :=
  { s with ocr0a := 0, ocr2b := 0, engaged := false }

/-- Routine `motor_ligado()`: full duty on both PWM channels. -/
def motor_ligado (s : RxState) : RxState :=
  { s with ocr0a := 255, ocr2b := 255, engaged := true }

/-- Timer1 compare ISR (`TIMER1_COMPA_vect`): while penalized, increment the penalty
counter (a `uint8`) and leave the penalty after it reaches 5; then
either blink the laser and raise the tick signal (normal mode) or force
the laser off (penalized). -/
def tick (s : RxState) : RxState :=
  let s1 :=
    if s.modo_penalidade = 1 then
      if 5 ≤ (s.contador_penalidade + 1) % 256 then
        { s with modo_penalidade := 0, contador_penalidade := 0, pc1 := false }
      else
        { s with contador_penalidade := (s.contador_penalidade + 1) % 256 }
    else s
  if s1.modo_penalidade = 0 then
    { s1 with pc1 := !s1.pc1, tempo_rotacao := 1 }
  else
    { s1 with pc1 := false }

/-- Hit routine `vida()`: raise PD0, engage the motors, clear the tick signal and
busy-wait for the next timer tick (modelled as exactly one `tick`
firing during the wait), then enter the penalty with the counter and
the tick signal reset and the laser forced off. -/
def vida (s : RxState) : RxState :=
  let s1 := motor_ligado { s with pd0 := true }
  let s2 := tick { s1 with tempo_rotacao := 0 }
  { s2 with tempo_rotacao := 0, modo_penalidade := 1,
            contador_penalidade := 0, pc1 := false }

/-- The receiver's command switch on a received packet
(`cmd = dados_recebidos[0]`, `velocidade = dados_recebidos[1]`,
`velocidade_F_R = 255 - velocidade`). -/
def dispatch (cmd velocidade : Nat) (s : RxState) : RxState :=
  let velocidade_F_R := 255 - velocidade
  if cmd = 0xA1 then
    if s.vidas = 0 then
      { s with vidas := 3, pc4 := !s.pc4, pc3 := !s.pc3, pd2 := !s.pd2 }
    else s
  else if cmd = 0xA2 then { s with pc4 := !s.pc4 }
  else if cmd = 0xA3 then { s with pd0 := !s.pd0 }
  else if cmd = 0xA4 then { s with pd1 := !s.pd1 }
  else if cmd = 0xA5 then
    if s.estado_rele = 0 then
      { (motor_ligado s) with
        pd0 := false, pd1 := false,
        ocr0a := velocidade_F_R, ocr2b := velocidade_F_R }
    else s
  else if cmd = 0xA6 then
    { (motor_desligado s) with pd0 := false, pd1 := false, estado_rele := 0 }
  else if cmd = 0xA7 then
    { (motor_ligado { s with pd0 := true, pd1 := true }) with
      estado_rele := 1, ocr0a := velocidade_F_R, ocr2b := velocidade_F_R }
  else if cmd = 0xA8 then
    { (motor_ligado s) with ocr0a := 0, ocr2b := velocidade }
  else if cmd = 0xAA then
    { (motor_ligado s) with ocr0a := velocidade, ocr2b := 0 }
  else if cmd = 0xAB then
    { (motor_ligado s) with ocr0a := velocidade_F_R, ocr2b := velocidade / 2 }
  else if cmd = 0xAC then
    { (motor_ligado s) with ocr0a := velocidade / 2, ocr2b := velocidade_F_R }
  else if cmd = 0xAD then
    { (motor_ligado s) with ocr0a := velocidade_F_R, ocr2b := velocidade / 2 }
  else if cmd = 0xAE then
    { (motor_ligado s) with ocr0a := velocidade / 2, ocr2b := velocidade_F_R }
  else s

/-- The LDR life cascade at the bottom of the receiver's main loop. -/
def lifeCheck (ldr_val : Nat) (s : RxState) : RxState :=
  if ldr_val < 30 ∧ s.vidas = 3 ∧ s.ldr_estado = 0 then
    vida { s with vidas := s.vidas - 1, pc3 := false, ldr_estado := 1 }
  else if ldr_val < 30 ∧ s.vidas = 2 ∧ s.ldr_estado = 0 then
    vida { s with vidas := s.vidas - 1, pc4 := false, ldr_estado := 1 }
  else if ldr_val < 30 ∧ s.vidas = 1 ∧ s.ldr_estado = 0 then
    vida { s with vidas := s.vidas - 1, pd2 := false, ldr_estado := 1 }
  else if 30 < ldr_val then
    { s with ldr_estado := 0 }
  else s

/-- One iteration of the receiver's `while(1)` loop.  `packet` is the
pending radio packet, if any; the returned `Bool` says whether
`nrf24_read` consumed it this iteration.  While penalized the body is
`motor_desligado(); continue;` — nothing else runs. -/
def loopIter (ldr_val : Nat) (packet : Option (Nat × Nat)) (s : RxState) :
    RxState × Bool :=
  if s.modo_penalidade = 1 then
    (motor_desligado s, false)
  else
    let s1 := match packet with
      | some p => dispatch p.1 p.2 s
      | none => s
    (lifeCheck ldr_val s1, packet.isSome)

/-- Receiver state right after the initialization in `main` (laser off,
motors off, `PORTC ^= PC4|PC3` and `PORTD ^= PD2` from zero, 3 lives). -/
def initState : RxState :=
  { tempo_rotacao := 0, modo_penalidade := 0, contador_penalidade := 0,
    ldr_estado := 0, vidas := 3, estado_rele := 0,
    pc1 := false, pc4 := true, pc3 := true,
    pd0 := false, pd1 := false, pd2 := true,
    ocr0a := 0, ocr2b := 0, engaged := false }

/-- Transmitter `get_cmd`: quantize the two joystick axes and map the
resulting 3×3 cell to a command byte. -/
def get_cmd (x y : Nat) : Nat :=
  let x_dir : Int := if x < 200 then -1 else if 800 < x then 1 else 0
  let y_dir : Int := if y < 200 then -1 else if 800 < y then 1 else 0
  let estado : Int := (x_dir + 1) * 3 + (y_dir + 1)
  if estado = 4 then 0xA6
  else if estado = 5 then 0xA7
  else if estado = 3 then 0xA5
  else if estado = 1 then 0xA8
  else if estado = 7 then 0xAA
  else if estado = 2 then 0xAB
  else if estado = 8 then 0xAC
  else if estado = 0 then 0xAD
  else if estado = 6 then 0xAE
  else 0xA6

/-- Transmitter speed byte (`velocidade_final` in `main`): 255 in the
neutral band, tapering linearly to 0 at each end of the axis, clamped
at 0.  The C `long` arithmetic is modelled on `Int`. -/
def velocidade_final (y : Nat) : Nat :=
  if 800 < y then
    let temp_vel : Int := 255 - (((y : Int) - 801) * 255) / 222
    (if temp_vel < 0 then 0 else temp_vel).toNat
  else if y < 200 then
    let temp_vel : Int := 255 - ((199 - (y : Int)) * 255) / 199
    (if temp_vel < 0 then 0 else temp_vel).toNat
  else 255

/-- Transmitter command byte (`data_packet[0]`): the switch on
`~PIND & 0x0F` (buttons are active-low on the four low bits of PIND),
falling back to the joystick command. -/
def data_packet0 (pind x y : Nat) : Nat :=
  let mask := (pind &&& 0x0F) ^^^ 0x0F
  if mask = 1 then 0xA1
  else if mask = 2 then 0xA2
  else if mask = 4 then 0xA3
  else if mask = 8 then 0xA4
  else get_cmd x y

/-- The closed command enumeration of the specification. -/
inductive Command where
  | RESET_LIVES | TOGGLE_A | TOGGLE_B | TOGGLE_C
  | REVERSE | STOP | FORWARD | LEFT | RIGHT
  | FORWARD_LEFT | FORWARD_RIGHT | REVERSE_LEFT | REVERSE_RIGHT
  deriving DecidableEq, Repr

/-- Wire code bound to each `Command` by the specification. -/
def cmdCode : Command → Nat
  | .RESET_LIVES => 0xA1
  | .TOGGLE_A => 0xA2
  | .TOGGLE_B => 0xA3
  | .TOGGLE_C => 0xA4
  | .REVERSE => 0xA5
  | .STOP => 0xA6
  | .FORWARD => 0xA7
  | .LEFT => 0xA8
  | .RIGHT => 0xAA
  | .FORWARD_LEFT => 0xAB
  | .FORWARD_RIGHT => 0xAC
  | .REVERSE_LEFT => 0xAD
  | .REVERSE_RIGHT => 0xAE

/-- Modelled from the spec: `quantizeAxis(raw)` →
-1 if raw<200, +1 if raw>800, else 0. -/
def quantizeAxis (raw : Nat) : Int :=
  if raw < 200 then -1 else if 800 < raw then 1 else 0

/-- Modelled from the spec: the fixed 3×3 table of `mapAxesToCommand`.
The spec only defines it on arguments in {-1,0,1}; other pairs fall to
STOP here (never reached through `quantizeAxis`). -/
def mapAxesToCommand (xDir yDir : Int) : Command :=
  if xDir = 0 ∧ yDir = 0 then .STOP
  else if xDir = 0 ∧ yDir = 1 then .FORWARD
  else if xDir = 0 ∧ yDir = -1 then .REVERSE
  else if xDir = -1 ∧ yDir = 0 then .LEFT
  else if xDir = 1 ∧ yDir = 0 then .RIGHT
  else if xDir = -1 ∧ yDir = 1 then .FORWARD_LEFT
  else if xDir = 1 ∧ yDir = 1 then .FORWARD_RIGHT
  else if xDir = -1 ∧ yDir = -1 then .REVERSE_LEFT
  else if xDir = 1 ∧ yDir = -1 then .REVERSE_RIGHT
  else .STOP

/-- Scenario trace, hit 1: first qualifying LDR hit from the initial
state (reading 10 < 30 with the latch clear). -/
def hitTrace1 : RxState := lifeCheck 10 initState

/-- Scenario trace: penalty of hit 1 expires after 5 ticks and a
reading above threshold clears the latch. -/
def recov1 : RxState := lifeCheck 100 (tick^[5] hitTrace1)

/-- Scenario trace, hit 2. -/
def hitTrace2 : RxState := lifeCheck 10 recov1

/-- Scenario trace: recovery after hit 2. -/
def recov2 : RxState := lifeCheck 100 (tick^[5] hitTrace2)

/-- Scenario trace, hit 3. -/
def hitTrace3 : RxState := lifeCheck 10 recov2

/-- Scenario trace: recovery after hit 3. -/
def recov3 : RxState := lifeCheck 100 (tick^[5] hitTrace3)

/-- Scenario trace, attempted hit 4 at zero lives. -/
def hitTrace4 : RxState := lifeCheck 10 recov3

/-- The ISR never touches the life counter, the LDR latch, the motor
registers, the direction flag or the indicator bits. -/
theorem tick_pres (s : RxState) :
    (tick s).vidas = s.vidas ∧ (tick s).ldr_estado = s.ldr_estado ∧
    (tick s).estado_rele = s.estado_rele ∧ (tick s).ocr0a = s.ocr0a ∧
    (tick s).ocr2b = s.ocr2b ∧ (tick s).engaged = s.engaged ∧
    (tick s).pc4 = s.pc4 ∧ (tick s).pc3 = s.pc3 ∧ (tick s).pd0 = s.pd0 ∧
    (tick s).pd1 = s.pd1 ∧ (tick s).pd2 = s.pd2 := by
  unfold tick
  dsimp only
  split <;> split <;> simp_all

theorem vida_vidas (s : RxState) : (vida s).vidas = s.vidas := by
  simp [vida, tick_pres, motor_ligado]

theorem vida_ldr_estado (s : RxState) : (vida s).ldr_estado = s.ldr_estado := by
  simp [vida, tick_pres, motor_ligado]

theorem vida_modo (s : RxState) : (vida s).modo_penalidade = 1 := rfl

theorem vida_contador (s : RxState) : (vida s).contador_penalidade = 0 := rfl

theorem vida_pc1 (s : RxState) : (vida s).pc1 = false := rfl

theorem vida_estado_rele (s : RxState) :
    (vida s).estado_rele = s.estado_rele := by
  simp [vida, tick_pres, motor_ligado]

theorem lifeCheck_hit3 (s : RxState) (ldr : Nat) (hl : ldr < 30)
    (hz : s.ldr_estado = 0) (hv : s.vidas = 3) :
    lifeCheck ldr s =
      vida { s with vidas := s.vidas - 1, pc3 := false, ldr_estado := 1 } := by
  unfold lifeCheck
  simp [hl, hz, hv]

theorem lifeCheck_hit2 (s : RxState) (ldr : Nat) (hl : ldr < 30)
    (hz : s.ldr_estado = 0) (hv : s.vidas = 2) :
    lifeCheck ldr s =
      vida { s with vidas := s.vidas - 1, pc4 := false, ldr_estado := 1 } := by
  unfold lifeCheck
  simp [hl, hz, hv]

theorem lifeCheck_hit1 (s : RxState) (ldr : Nat) (hl : ldr < 30)
    (hz : s.ldr_estado = 0) (hv : s.vidas = 1) :
    lifeCheck ldr s =
      vida { s with vidas := s.vidas - 1, pd2 := false, ldr_estado := 1 } := by
  unfold lifeCheck
  simp [hl, hz, hv]

theorem lifeCheck_latched (s : RxState) (ldr : Nat)
    (h : s.ldr_estado ≠ 0) (hl : ldr < 30) : lifeCheck ldr s = s := by
  have hng : ¬ 30 < ldr := by omega
  unfold lifeCheck
  simp [h, hng]

theorem lifeCheck_low_nohit (s : RxState) (ldr : Nat) (hl : ldr < 30)
    (h3 : s.vidas ≠ 3) (h2 : s.vidas ≠ 2) (h1 : s.vidas ≠ 1) :
    lifeCheck ldr s = s := by
  have hng : ¬ 30 < ldr := by omega
  unfold lifeCheck
  simp [h3, h2, h1, hng]

theorem lifeCheck_dead (s : RxState) (ldr : Nat) (hl : ldr < 30)
    (hv : s.vidas = 0) : lifeCheck ldr s = s := by
  exact lifeCheck_low_nohit s ldr hl (by omega) (by omega) (by omega)

theorem lifeCheck_clear (s : RxState) (ldr : Nat) (hl : 30 < ldr) :
    lifeCheck ldr s = { s with ldr_estado := 0 } := by
  have hng : ¬ ldr < 30 := by omega
  unfold lifeCheck
  simp [hng, hl]

theorem lifeCheck_at_30 (s : RxState) : lifeCheck 30 s = s := by
  unfold lifeCheck
  simp

theorem lifeCheck_hit (s : RxState) (ldr : Nat) (hl : ldr < 30)
    (hz : s.ldr_estado = 0) (hv : s.vidas = 3 ∨ s.vidas = 2 ∨ s.vidas = 1) :
    (lifeCheck ldr s).vidas = s.vidas - 1 ∧
    (lifeCheck ldr s).modo_penalidade = 1 ∧
    (lifeCheck ldr s).ldr_estado = 1 ∧
    (lifeCheck ldr s).contador_penalidade = 0 := by
  rcases hv with hv | hv | hv
  · rw [lifeCheck_hit3 s ldr hl hz hv]
    simp [vida_vidas, vida_ldr_estado, vida_modo, vida_contador]
  · rw [lifeCheck_hit2 s ldr hl hz hv]
    simp [vida_vidas, vida_ldr_estado, vida_modo, vida_contador]
  · rw [lifeCheck_hit1 s ldr hl hz hv]
    simp [vida_vidas, vida_ldr_estado, vida_modo, vida_contador]

theorem lifeCheck_low_idem (s : RxState) (l1 l2 : Nat) (h1 : l1 < 30)
    (h2 : l2 < 30) : lifeCheck l2 (lifeCheck l1 s) = lifeCheck l1 s := by
  by_cases hz : s.ldr_estado = 0
  · by_cases hv3 : s.vidas = 3
    · rw [lifeCheck_hit3 s l1 h1 hz hv3]
      exact lifeCheck_latched _ l2 (by simp [vida_ldr_estado]) h2
    · by_cases hv2 : s.vidas = 2
      · rw [lifeCheck_hit2 s l1 h1 hz hv2]
        exact lifeCheck_latched _ l2 (by simp [vida_ldr_estado]) h2
      · by_cases hv1 : s.vidas = 1
        · rw [lifeCheck_hit1 s l1 h1 hz hv1]
          exact lifeCheck_latched _ l2 (by simp [vida_ldr_estado]) h2
        · rw [lifeCheck_low_nohit s l1 h1 hv3 hv2 hv1,
              lifeCheck_low_nohit s l2 h2 hv3 hv2 hv1]
  · rw [lifeCheck_latched s l1 hz h1, lifeCheck_latched s l2 hz h2]

theorem loopIter_pen (s : RxState) (ldr : Nat) (pkt : Option (Nat × Nat))
    (h : s.modo_penalidade = 1) :
    loopIter ldr pkt s = (motor_desligado s, false) := by
  unfold loopIter
  simp [h]

theorem dispatch_reset (s : RxState) (v : Nat) (h : s.vidas = 0) :
    dispatch 0xA1 v s =
      { s with vidas := 3, pc4 := !s.pc4, pc3 := !s.pc3, pd2 := !s.pd2 } := by
  unfold dispatch
  simp [h]

theorem dispatch_reset_noop (s : RxState) (v : Nat) (h : s.vidas ≠ 0) :
    dispatch 0xA1 v s = s := by
  unfold dispatch
  simp [h]

theorem tick_pen_step (s : RxState) (h : s.modo_penalidade = 1)
    (hc : s.contador_penalidade + 1 < 5) :
    tick s = { s with contador_penalidade := s.contador_penalidade + 1,
                      pc1 := false } := by
  have hm : (s.contador_penalidade + 1) % 256 = s.contador_penalidade + 1 :=
    Nat.mod_eq_of_lt (by omega)
  have hn : ¬ 5 ≤ s.contador_penalidade + 1 := by omega
  unfold tick
  simp [h, hm, hn]

theorem tick_pen_exit (s : RxState) (h : s.modo_penalidade = 1)
    (hc : s.contador_penalidade = 4) :
    tick s = { s with modo_penalidade := 0, contador_penalidade := 0,
                      pc1 := true, tempo_rotacao := 1 } := by
  unfold tick
  simp [h, hc]

theorem ticks_pen (s : RxState) (h : s.modo_penalidade = 1)
    (hc : s.contador_penalidade = 0) (hp : s.pc1 = false) :
    ∀ k, k ≤ 4 →
      tick^[k] s = { s with contador_penalidade := k, pc1 := false } := by
  intro k
  induction k with
  | zero => intro _; cases s; simp_all
  | succ n ih =>
    intro hk
    rw [Function.iterate_succ_apply', ih (by omega)]
    rw [tick_pen_step { s with contador_penalidade := n, pc1 := false } h
        (by omega : n + 1 < 5)]

/-- C1 (counterexample): the claim predicts that `Packet{FORWARD,
speed=200}` yields `setDuty(200,200)`, but the receiver's 0xA7 case
writes `velocidade_F_R = 255 - 200 = 55` into both duty registers. -/
theorem forward_duty_not_speed_cex :
    (dispatch 0xA7 200 initState).ocr0a = 55 ∧
    (dispatch 0xA7 200 initState).ocr2b = 55 ∧
    ¬ ((dispatch 0xA7 200 initState).ocr0a = 200 ∧
       (dispatch 0xA7 200 initState).ocr2b = 200) := by decide

/-- C1 (amended): a FORWARD packet received while not penalized goes
through the dispatcher, which engages the motors with duty `255 - s` on
both wheels, raises both direction outputs and sets the "currently
forward" flag; in particular speed 200 yields `setDuty(55,55)`. -/
theorem forward_sets_inverted_duty_and_flag (s : RxState) (v ldr : Nat)
    (hv : v ≤ 255) (hp : s.modo_penalidade = 0) :
    (loopIter ldr (some (0xA7, v)) s).1 = lifeCheck ldr (dispatch 0xA7 v s) ∧
    (loopIter ldr (some (0xA7, v)) s).2 = true ∧
    (dispatch 0xA7 v s).engaged = true ∧
    (dispatch 0xA7 v s).ocr0a = 255 - v ∧
    (dispatch 0xA7 v s).ocr2b = 255 - v ∧
    (dispatch 0xA7 v s).estado_rele = 1 := by
  have hnp : ¬ s.modo_penalidade = 1 := by omega
  refine ⟨?_, ?_, rfl, rfl, rfl, rfl⟩ <;> simp [loopIter, hnp]

/-- Witness for C1's amended theorem at `Packet{FORWARD, 200}` from the
initial state. -/
theorem forward_sets_inverted_duty_and_flag_witness :
    (200 ≤ 255 ∧ initState.modo_penalidade = 0) ∧
    (dispatch 0xA7 200 initState).ocr0a = 255 - 200 ∧
    (dispatch 0xA7 200 initState).estado_rele = 1 :=
  ⟨⟨by decide, by decide⟩,
   (forward_sets_inverted_duty_and_flag initState 200 100 (by decide)
     rfl).2.2.2.1,
   (forward_sets_inverted_duty_and_flag initState 200 100 (by decide)
     rfl).2.2.2.2.2⟩

/-- C2 (counterexample): with the penalty active and a packet pending,
the loop iteration does not read the radio — the claim that packets are
drained while penalized is false. -/
theorem penalized_iteration_does_not_read_radio_cex :
    (loopIter 100 (some (0xA7, 200))
        { initState with modo_penalidade := 1 }).2 = false := by decide

/-- C2 (amended): every main-loop iteration executed while the penalty
is active forces the motors disengaged and does nothing else: the radio
is not polled and a pending packet is left unconsumed. -/
theorem penalized_iteration_disengages_and_skips_radio
    (s : RxState) (ldr : Nat) (pkt : Option (Nat × Nat))
    (h : s.modo_penalidade = 1) :
    loopIter ldr pkt s = (motor_desligado s, false) ∧
    (motor_desligado s).ocr0a = 0 ∧ (motor_desligado s).ocr2b = 0 ∧
    (motor_desligado s).engaged = false :=
  ⟨loopIter_pen s ldr pkt h, rfl, rfl, rfl⟩

/-- Witness for C2's amended theorem at a concrete penalized state. -/
theorem penalized_iteration_disengages_and_skips_radio_witness :
    ({ initState with modo_penalidade := 1 }).modo_penalidade = 1 ∧
    loopIter 100 (some (0xA7, 200)) { initState with modo_penalidade := 1 } =
      (motor_desligado { initState with modo_penalidade := 1 }, false) :=
  ⟨by decide,
   (penalized_iteration_disengages_and_skips_radio
     { initState with modo_penalidade := 1 } 100 (some (0xA7, 200)) rfl).1⟩

/-- C3: a qualifying hit (reading < 30, latch clear) at 3, 2 or 1 lives
decrements lives and enters the penalty with the counter reset; at 0
lives a low reading changes nothing; RESET_LIVES (0xA1) restores 3
lives exactly when lives are 0 and is a no-op otherwise; and the
concrete scenario 3→2→1→0 with a penalty per hit, a vacuous 4th hit,
and the final reset all evaluate as claimed. -/
theorem life_cascade_and_reset (s : RxState) (v : Nat) :
    (∀ ldr, ldr < 30 → s.ldr_estado = 0 →
        (s.vidas = 3 ∨ s.vidas = 2 ∨ s.vidas = 1) →
        (lifeCheck ldr s).vidas = s.vidas - 1 ∧
        (lifeCheck ldr s).modo_penalidade = 1 ∧
        (lifeCheck ldr s).contador_penalidade = 0) ∧
    (∀ ldr, ldr < 30 → s.vidas = 0 → lifeCheck ldr s = s) ∧
    (s.vidas = 0 → (dispatch 0xA1 v s).vidas = 3) ∧
    (s.vidas ≠ 0 → dispatch 0xA1 v s = s) ∧
    (hitTrace1.vidas = 2 ∧ hitTrace1.modo_penalidade = 1 ∧
     hitTrace2.vidas = 1 ∧ hitTrace2.modo_penalidade = 1 ∧
     hitTrace3.vidas = 0 ∧ hitTrace3.modo_penalidade = 1 ∧
     hitTrace4 = recov3 ∧ hitTrace4.vidas = 0 ∧
     hitTrace4.modo_penalidade = 0 ∧
     (dispatch 0xA1 0 hitTrace4).vidas = 3) := by
  refine ⟨?_, ?_, ?_, ?_, by decide⟩
  · intro ldr hl hz hv
    exact ⟨(lifeCheck_hit s ldr hl hz hv).1, (lifeCheck_hit s ldr hl hz hv).2.1,
           (lifeCheck_hit s ldr hl hz hv).2.2.2⟩
  · intro ldr hl hv
    exact lifeCheck_dead s ldr hl hv
  · intro h
    rw [dispatch_reset s v h]
  · intro h
    exact dispatch_reset_noop s v h

/-- Witness for C3's theorem: the first qualifying hit from the initial
state decrements lives. -/
theorem life_cascade_and_reset_witness :
    (10 < 30 ∧ initState.ldr_estado = 0 ∧ initState.vidas = 3) ∧
    (lifeCheck 10 initState).vidas = initState.vidas - 1 :=
  ⟨⟨by decide, by decide, by decide⟩,
   ((life_cascade_and_reset initState 0).1 10 (by decide) (by decide)
     (Or.inl (by decide))).1⟩

/-- C4: from a state that just entered PENALIZED (flag 1, counter 0,
laser off), the state is still penalized with the laser off after each
of the first 4 ticks, returns to NORMAL with the counter reset exactly
at the 5th tick, and during the window every loop iteration forces the
motors disengaged, leaves the laser off and gives any pending packet no
effect (it is not even consumed). -/
theorem penalty_five_ticks (s : RxState) (h1 : s.modo_penalidade = 1)
    (h2 : s.contador_penalidade = 0) (h3 : s.pc1 = false) :
    (∀ k, k ≤ 4 → (tick^[k] s).modo_penalidade = 1 ∧
        (tick^[k] s).pc1 = false ∧ (tick^[k] s).contador_penalidade = k) ∧
    (tick^[5] s).modo_penalidade = 0 ∧
    (tick^[5] s).contador_penalidade = 0 ∧
    (∀ k ldr pkt, k ≤ 4 →
        loopIter ldr pkt (tick^[k] s) =
          (motor_desligado (tick^[k] s), false) ∧
        (motor_desligado (tick^[k] s)).ocr0a = 0 ∧
        (motor_desligado (tick^[k] s)).ocr2b = 0 ∧
        (motor_desligado (tick^[k] s)).pc1 = false) := by
  have hk := ticks_pen s h1 h2 h3
  have h5 : tick^[5] s =
      { s with modo_penalidade := 0, contador_penalidade := 0,
               pc1 := true, tempo_rotacao := 1 } := by
    rw [show (5:Nat) = 4 + 1 from rfl, Function.iterate_succ_apply',
        hk 4 (by omega),
        tick_pen_exit { s with contador_penalidade := 4, pc1 := false } h1 rfl]
  refine ⟨?_, ?_, ?_, ?_⟩
  · intro k hkk
    rw [hk k hkk]
    exact ⟨h1, rfl, rfl⟩
  · rw [h5]
  · rw [h5]
  · intro k ldr pkt hkk
    rw [hk k hkk]
    exact ⟨loopIter_pen _ ldr pkt h1, rfl, rfl, rfl⟩

/-- Witness for C4's theorem at a concrete freshly-penalized state. -/
theorem penalty_five_ticks_witness :
    ({ initState with modo_penalidade := 1 }).modo_penalidade = 1 ∧
    (tick^[5] { initState with modo_penalidade := 1 }).modo_penalidade = 0 :=
  ⟨by decide,
   (penalty_five_ticks { initState with modo_penalidade := 1 }
     rfl rfl rfl).2.1⟩

/-- C5 (counterexample): a reading of exactly 30 does not clear the hit
latch — the clear condition in the code is strictly `> 30`, so the
claim that the latch clears at readings ≥ 30 fails at 30. -/
theorem latch_not_cleared_at_30_cex :
    (lifeCheck 30 { initState with ldr_estado := 1 }).ldr_estado = 1 ∧
    ¬ (lifeCheck 30 { initState with ldr_estado := 1 }).ldr_estado = 0 := by
  decide

/-- C5 (amended): the hit latch is cleared in any iteration whose
reading is strictly greater than 30; a reading of exactly 30 leaves the
whole state unchanged; and one sustained below-threshold reading
decrements lives at most once (a second low iteration is a no-op). -/
theorem latch_clear_strict_threshold (s : RxState) (ldr l1 l2 : Nat) :
    (30 < ldr → (lifeCheck ldr s).ldr_estado = 0) ∧
    lifeCheck 30 s = s ∧
    (l1 < 30 → l2 < 30 → lifeCheck l2 (lifeCheck l1 s) = lifeCheck l1 s) := by
  refine ⟨?_, lifeCheck_at_30 s, ?_⟩
  · intro h
    rw [lifeCheck_clear s ldr h]
  · intro h1 h2
    exact lifeCheck_low_idem s l1 l2 h1 h2

/-- Witness for C5's amended theorem: reading 31 clears a set latch and
a repeated low reading after a hit changes nothing. -/
theorem latch_clear_strict_threshold_witness :
    (30 < 31 ∧
     (lifeCheck 31 { initState with ldr_estado := 1 }).ldr_estado = 0) ∧
    (10 < 30 ∧ lifeCheck 10 (lifeCheck 10 initState) = lifeCheck 10 initState) :=
  ⟨⟨by decide,
    (latch_clear_strict_threshold { initState with ldr_estado := 1 }
      31 10 10).1 (by decide)⟩,
   ⟨by decide,
    (latch_clear_strict_threshold initState 31 10 10).2.2
      (by decide) (by decide)⟩⟩

/-- C6: for all axis values, the transmitter's `get_cmd` agrees with
the spec's 3×3 table composed with the spec's axis quantization. -/
theorem get_cmd_eq_spec_table (x y : Nat) :
    get_cmd x y = cmdCode (mapAxesToCommand (quantizeAxis x) (quantizeAxis y)) := by
  unfold get_cmd quantizeAxis mapAxesToCommand
  by_cases hx1 : x < 200 <;> by_cases hx2 : 800 < x <;>
    by_cases hy1 : y < 200 <;> by_cases hy2 : 800 < y <;>
    simp [hx1, hx2, hy1, hy2, cmdCode]

theorem vf_le_255 (y : Nat) : velocidade_final y ≤ 255 := by
  unfold velocidade_final
  split
  · next hgt =>
    have hnum : (0:Int) ≤ ((y:Int) - 801) * 255 := by omega
    have hq : (0:Int) ≤ ((y:Int) - 801) * 255 / 222 :=
      Int.ediv_nonneg hnum (by norm_num)
    set q : Int := ((y:Int) - 801) * 255 / 222 with hqdef
    show (if (255 - q : Int) < 0 then (0:Int) else 255 - q).toNat ≤ 255
    split
    · simp
    · rw [Int.toNat_le]; omega
  · split
    · next hlt =>
      have hnum : (0:Int) ≤ (199 - (y:Int)) * 255 := by omega
      have hq : (0:Int) ≤ (199 - (y:Int)) * 255 / 199 :=
        Int.ediv_nonneg hnum (by norm_num)
      set q : Int := (199 - (y:Int)) * 255 / 199 with hqdef
      show (if (255 - q : Int) < 0 then (0:Int) else 255 - q).toNat ≤ 255
      split
      · simp
      · rw [Int.toNat_le]; omega
    · omega

theorem vf_band (y : Nat) (h1 : 200 ≤ y) (h2 : y ≤ 800) :
    velocidade_final y = 255 := by
  unfold velocidade_final
  rw [if_neg (by omega), if_neg (by omega)]

theorem vf_anti_hi (a b : Nat) (ha : 800 < a) (hab : a ≤ b) :
    velocidade_final b ≤ velocidade_final a := by
  have hb : 800 < b := by omega
  unfold velocidade_final
  rw [if_pos hb, if_pos ha]
  have hdiv : ((a:Int) - 801) * 255 / 222 ≤ ((b:Int) - 801) * 255 / 222 :=
    Int.ediv_le_ediv (by norm_num) (by omega)
  set qa : Int := ((a:Int) - 801) * 255 / 222 with hqa
  set qb : Int := ((b:Int) - 801) * 255 / 222 with hqb
  show (if (255 - qb : Int) < 0 then (0:Int) else 255 - qb).toNat ≤
       (if (255 - qa : Int) < 0 then (0:Int) else 255 - qa).toNat
  apply Int.toNat_le_toNat
  split <;> split <;> omega

theorem vf_anti_lo (a b : Nat) (hba : b ≤ a) (ha : a < 200) :
    velocidade_final b ≤ velocidade_final a := by
  have hb : b < 200 := by omega
  have ha8 : ¬ 800 < a := by omega
  have hb8 : ¬ 800 < b := by omega
  unfold velocidade_final
  rw [if_neg hb8, if_pos hb, if_neg ha8, if_pos ha]
  have hdiv : (199 - (a:Int)) * 255 / 199 ≤ (199 - (b:Int)) * 255 / 199 :=
    Int.ediv_le_ediv (by norm_num) (by omega)
  set qa : Int := (199 - (a:Int)) * 255 / 199 with hqa
  set qb : Int := (199 - (b:Int)) * 255 / 199 with hqb
  show (if (255 - qb : Int) < 0 then (0:Int) else 255 - qb).toNat ≤
       (if (255 - qa : Int) < 0 then (0:Int) else 255 - qa).toNat
  apply Int.toNat_le_toNat
  split <;> split <;> omega

/-- C7: the transmitter's speed byte is always in [0,255], equals 255
at the stick centre and throughout the neutral band [200,800], equals 0
at both extremes, and is non-increasing as the deflection grows beyond
either end of the neutral band. -/
theorem velocidade_final_props (y : Nat) (hy : y ≤ 1023) :
    velocidade_final y ≤ 255 ∧
    velocidade_final 500 = 255 ∧ velocidade_final 1023 = 0 ∧
    velocidade_final 0 = 0 ∧
    (200 ≤ y → y ≤ 800 → velocidade_final y = 255) ∧
    (∀ a b : Nat, 800 < a → a ≤ b → velocidade_final b ≤ velocidade_final a) ∧
    (∀ a b : Nat, b ≤ a → a < 200 → velocidade_final b ≤ velocidade_final a) := by
  refine ⟨vf_le_255 y, by decide, by decide, by decide, ?_, ?_, ?_⟩
  · intro h1 h2
    exact vf_band y h1 h2
  · intro a b ha hab
    exact vf_anti_hi a b ha hab
  · intro a b hba ha
    exact vf_anti_lo a b hba ha

/-- Witness for C7's theorem at y = 500 and the monotone part at
801 ≤ 900. -/
theorem velocidade_final_props_witness :
    (500 ≤ 1023 ∧ velocidade_final 500 ≤ 255) ∧
    (800 < 801 ∧ 801 ≤ 900 ∧
     velocidade_final 900 ≤ velocidade_final 801) :=
  ⟨⟨by decide, (velocidade_final_props 500 (by decide)).1⟩,
   ⟨by decide, by decide,
    (velocidade_final_props 500 (by decide)).2.2.2.2.2.1 801 900
      (by decide) (by decide)⟩⟩

/-- C8 (counterexample): for FORWARD_LEFT with speed 200 the claim
requires the outside wheel at the full value 200, but the code writes
(55, 100) — `255 - 200` on the turn-side wheel and `200 / 2` on the
other — so neither register holds 200. -/
theorem diagonal_full_value_cex :
    (dispatch 0xAB 200 initState).ocr0a = 55 ∧
    (dispatch 0xAB 200 initState).ocr2b = 100 ∧
    ¬ ((dispatch 0xAB 200 initState).ocr0a = 200 ∨
       (dispatch 0xAB 200 initState).ocr2b = 200) := by decide

/-- C8 (amended): every diagonal command engages the motors and sets
the wheel on the turn side to `255 - s` and the other wheel to `s / 2`;
the forward and reverse variants use the same `255 - s` full value. -/
theorem diagonal_duty_halves_and_inverted_full (s : RxState) (v : Nat)
    (hv : v ≤ 255) :
    ((dispatch 0xAB v s).ocr0a = 255 - v ∧
     (dispatch 0xAB v s).ocr2b = v / 2) ∧
    ((dispatch 0xAC v s).ocr0a = v / 2 ∧
     (dispatch 0xAC v s).ocr2b = 255 - v) ∧
    ((dispatch 0xAD v s).ocr0a = 255 - v ∧
     (dispatch 0xAD v s).ocr2b = v / 2) ∧
    ((dispatch 0xAE v s).ocr0a = v / 2 ∧
     (dispatch 0xAE v s).ocr2b = 255 - v) ∧
    (dispatch 0xAB v s).engaged = true ∧
    (dispatch 0xAC v s).engaged = true ∧
    (dispatch 0xAD v s).engaged = true ∧
    (dispatch 0xAE v s).engaged = true :=
  ⟨⟨rfl, rfl⟩, ⟨rfl, rfl⟩, ⟨rfl, rfl⟩, ⟨rfl, rfl⟩, rfl, rfl, rfl, rfl⟩

/-- Witness for C8's amended theorem at speed 200. -/
theorem diagonal_duty_halves_and_inverted_full_witness :
    200 ≤ 255 ∧
    (dispatch 0xAB 200 initState).ocr0a = 255 - 200 ∧
    (dispatch 0xAB 200 initState).ocr2b = 200 / 2 :=
  ⟨by decide,
   (diagonal_duty_halves_and_inverted_full initState 200 (by decide)).1.1,
   (diagonal_duty_halves_and_inverted_full initState 200 (by decide)).1.2⟩

/-- C9 (counterexample): with two buttons active at once (PIND bits 0
and 1 low, so `252 &&& 1 = 0` and `252 &&& 2 = 0`), the transmitter
falls through to the joystick command 0xA6 instead of emitting any
utility command — "at least one button active" does not override. -/
theorem multi_button_no_override_cex :
    252 &&& 1 = 0 ∧ 252 &&& 2 = 0 ∧
    data_packet0 252 500 500 = 0xA6 ∧
    ¬ (data_packet0 252 500 500 = 0xA1 ∨ data_packet0 252 500 500 = 0xA2 ∨
       data_packet0 252 500 500 = 0xA3 ∨ data_packet0 252 500 500 = 0xA4) := by
  decide

/-- C9 (amended): only when exactly one of the four buttons is active
(the active-low mask `~PIND & 0x0F` equals 1, 2, 4 or 8) does the
transmitter emit that button's fixed utility command; for any other
mask — none or several buttons — the joystick-derived command is
emitted. -/
theorem single_button_override (pind x y : Nat) :
    ((pind &&& 15) ^^^ 15 = 1 → data_packet0 pind x y = 0xA1) ∧
    ((pind &&& 15) ^^^ 15 = 2 → data_packet0 pind x y = 0xA2) ∧
    ((pind &&& 15) ^^^ 15 = 4 → data_packet0 pind x y = 0xA3) ∧
    ((pind &&& 15) ^^^ 15 = 8 → data_packet0 pind x y = 0xA4) ∧
    ((pind &&& 15) ^^^ 15 ≠ 1 → (pind &&& 15) ^^^ 15 ≠ 2 →
     (pind &&& 15) ^^^ 15 ≠ 4 → (pind &&& 15) ^^^ 15 ≠ 8 →
     data_packet0 pind x y = get_cmd x y) := by
  unfold data_packet0
  refine ⟨?_, ?_, ?_, ?_, ?_⟩
  · intro h; simp [h]
  · intro h; simp [h]
  · intro h; simp [h]
  · intro h; simp [h]
  · intro h1 h2 h3 h4; simp [h1, h2, h3, h4]

/-- Witness for C9's amended theorem: button 0 alone overrides to
0xA1, and no buttons active falls back to the joystick command. -/
theorem single_button_override_witness :
    ((254 &&& 15) ^^^ 15 = 1 ∧ data_packet0 254 500 500 = 0xA1) ∧
    ((240 &&& 15) ^^^ 15 ≠ 1 ∧ data_packet0 240 123 456 = get_cmd 123 456) :=
  ⟨⟨by decide, (single_button_override 254 500 500).1 (by decide)⟩,
   ⟨by decide,
    (single_button_override 240 123 456).2.2.2.2
      (by decide) (by decide) (by decide) (by decide)⟩⟩

/-- C10: REVERSE_LEFT (0xAD) has exactly the same effect as
FORWARD_LEFT (0xAB) and REVERSE_RIGHT (0xAE) the same as FORWARD_RIGHT
(0xAC) for every state and speed; and unlike plain REVERSE (0xA5),
which is a no-op when the "currently forward" flag is set, the reverse
diagonals still engage the motors in that state. -/
theorem reverse_diagonals_equal_forward_diagonals (s : RxState) (v : Nat) :
    dispatch 0xAD v s = dispatch 0xAB v s ∧
    dispatch 0xAE v s = dispatch 0xAC v s ∧
    (s.estado_rele ≠ 0 → dispatch 0xA5 v s = s ∧
      (dispatch 0xAD v s).engaged = true ∧
      (dispatch 0xAE v s).engaged = true) := by
  refine ⟨rfl, rfl, fun h => ⟨?_, rfl, rfl⟩⟩
  unfold dispatch
  simp [h]

/-- Witness for C10's theorem with the forward flag set. -/
theorem reverse_diagonals_equal_forward_diagonals_witness :
    ({ initState with estado_rele := 1 }).estado_rele ≠ 0 ∧
    dispatch 0xA5 7 { initState with estado_rele := 1 } =
      { initState with estado_rele := 1 } :=
  ⟨by decide,
   ((reverse_diagonals_equal_forward_diagonals
       { initState with estado_rele := 1 } 7).2.2 (by decide)).1⟩
